import Mathlib

/- Verification of the pyamdgpu bindings module
   (src/gpustack_runtime/detector/pyamdgpu/__init__.py).

   The module is a thin ctypes layer over libdrm_amdgpu: it lazily loads the
   shared library, resolves native symbols with a cache, translates integer
   return codes into AMDGPUError values, and marshals the c_amdgpu_gpu_info
   record.  The embedding below models the Python module faithfully:
   Python exceptions become Except values, the process-global library
   singleton and symbol cache become an explicit state record, and external
   effects (dynamic loading, os.open, native calls) are driven by an
   explicit environment and recorded as an event trace. -/

namespace Pyamdgpu

/-! Error-code module constants, verbatim from the source. -/

def AMDGPU_SUCCESS : Int := 0
def AMDGPU_ERROR_UNINITIALIZED : Int := -99997
def AMDGPU_ERROR_FUNCTION_NOT_FOUND : Int := -99998
def AMDGPU_ERROR_LIBRARY_NOT_FOUND : Int := -99999

/-- The AMDGPUError exception class: it stores a single integer `value`. -/
structure AMDGPUError where
  value : Int
deriving DecidableEq, Repr

/-- The class-level table `AMDGPUError._extend_errcode_to_string`. -/
def _extend_errcode_to_string : List (Int × String) :=
  [(AMDGPU_ERROR_UNINITIALIZED, "Library Not Initialized"),
   (AMDGPU_ERROR_FUNCTION_NOT_FOUND, "Function Not Found"),
   (AMDGPU_ERROR_LIBRARY_NOT_FOUND, "Library Not Found")]

/-- `AMDGPUError.__init__`: keep the code if it is one of the sentinel keys
of `_extend_errcode_to_string`, otherwise store its negation. -/
def AMDGPUError.make (value : Int) : AMDGPUError :=
  { value := if (_extend_errcode_to_string.lookup value).isSome then value else -value }

/-- `AMDGPUError.__str__`.  The OS table `errno.errorcode` (code to errno
name) is an external input of the module and is passed as a parameter. -/
def AMDGPUError.message (errorcode : Int → Option String) (e : AMDGPUError) : String :=
  match _extend_errcode_to_string.lookup e.value with
  | some msg => "AMDGPU error " ++ toString e.value ++ ": " ++ msg
  | none =>
    match errorcode e.value with
    | none => "Unknown AMDGPU error " ++ toString e.value
    | some nm => "AMDGPU error " ++ toString e.value ++ ": " ++ nm

/-- The possible runtime types of the `other` operand of
`AMDGPUError.__eq__`: another AMDGPUError, an int, or anything else. -/
inductive PyEqOperand where
  | amdgpuErrorObj (e : AMDGPUError)
  | intObj (n : Int)
  | otherObj
deriving DecidableEq, Repr

/-- `AMDGPUError.__eq__`. -/
def AMDGPUError.eq (self : AMDGPUError) (other : PyEqOperand) : Bool :=
  match other with
  | .amdgpuErrorObj o => self.value == o.value
  | .intObj n => self.value == n
  | .otherObj => false

/-- `_amdgpuCheckReturn`: raise `AMDGPUError(ret)` on any nonzero return. -/
def _amdgpuCheckReturn (ret : Int) : Except AMDGPUError Int :=
  if ret ≠ AMDGPU_SUCCESS then .error (AMDGPUError.make ret) else .ok ret

/-- A Python value as seen by this module: int, str, bytes, a ctypes array,
or anything else. -/
inductive PyVal where
  | intVal (n : Int)
  | strVal (s : String)
  | bytesVal (b : List Nat)
  | arrVal (xs : List PyVal)
  | noneVal

def PyVal.isStr : PyVal → Bool
  | .strVal _ => true
  | _ => false

/-- The Python exceptions the module can raise: AMDGPUError, OSError from
os.open (carrying an errno), and the built-in exceptions raised by
attribute access, dict lookup, ctypes assignment and bytes decoding. -/
inductive PyErr where
  | amdgpuErr (e : AMDGPUError)
  | osError (code : Int)
  | attributeError
  | keyError
  | typeError
  | valueError
  | unicodeDecodeError
deriving DecidableEq, Repr

/-! UTF-8 encoding and decoding, the semantics of Python's str.encode()
and bytes.decode() with their default arguments. -/

def utf8EncodeChar (c : Nat) : List Nat :=
  if c < 0x80 then [c]
  else if c < 0x800 then [0xC0 + c / 64, 0x80 + c % 64]
  else if c < 0x10000 then [0xE0 + c / 4096, 0x80 + c / 64 % 64, 0x80 + c % 64]
  else [0xF0 + c / 262144, 0x80 + c / 4096 % 64, 0x80 + c / 64 % 64, 0x80 + c % 64]

/-- Python str.encode(): UTF-8 bytes of the string. -/
def pyEncode (s : String) : List Nat :=
  (s.data.map (fun c => utf8EncodeChar c.toNat)).flatten

def utf8Cont (b : Nat) : Bool := 0x80 ≤ b && b < 0xC0

/-- Decoding of one UTF-8 sequence: given the lead byte and the remaining
bytes, yield the code point and how many continuation bytes it used, or
none on a malformed sequence (stray continuation byte, overlong form,
surrogate, out-of-range, or truncation). -/
def utf8DecodeOne (b0 : Nat) (rest : List Nat) : Option (Nat × Nat) :=
  if b0 < 0x80 then some (b0, 0)
  else if b0 < 0xC2 then none
  else if b0 < 0xE0 then
    match rest with
    | b1 :: _ =>
      if utf8Cont b1 then some ((b0 - 0xC0) * 64 + (b1 - 0x80), 1) else none
    | _ => none
  else if b0 < 0xF0 then
    match rest with
    | b1 :: b2 :: _ =>
      if utf8Cont b1 && utf8Cont b2 then
        let n := (b0 - 0xE0) * 4096 + (b1 - 0x80) * 64 + (b2 - 0x80)
        if 0x800 ≤ n && (n < 0xD800 || 0xE000 ≤ n) then some (n, 2) else none
      else none
    | _ => none
  else if b0 < 0xF5 then
    match rest with
    | b1 :: b2 :: b3 :: _ =>
      if utf8Cont b1 && utf8Cont b2 && utf8Cont b3 then
        let n := (b0 - 0xF0) * 262144 + (b1 - 0x80) * 4096
            + (b2 - 0x80) * 64 + (b3 - 0x80)
        if 0x10000 ≤ n && n < 0x110000 then some (n, 3) else none
      else none
    | _ => none
  else none

/-- Python bytes.decode(): UTF-8 decoding, none on invalid input. -/
def utf8Decode : List Nat → Option (List Char)
  | [] => some []
  | b0 :: rest =>
    match utf8DecodeOne b0 rest with
    | none => none
    | some (n, k) =>
      match utf8Decode (rest.drop k) with
      | some cs => some (Char.ofNat n :: cs)
      | none => none
termination_by l => l.length
decreasing_by
  simp [List.length_drop]
  omega

/-! The c_amdgpu_gpu_info structure layout. -/

/-- The ctypes field kinds used by c_amdgpu_gpu_info: c_uint, c_ulonglong,
fixed-size arrays, and (for completeness of the marshaller model)
fixed-size c_char text buffers. -/
inductive CKind where
  | c_uint
  | c_ulonglong
  | c_array (n : Nat) (k : CKind)
  | c_char_array (n : Nat)
deriving DecidableEq, Repr

/-- The `_fields_` list of class c_amdgpu_gpu_info, verbatim from source. -/
def c_amdgpu_gpu_info_fields : List (String × CKind) :=
  [("asic_id", .c_uint),
   ("chip_rev", .c_uint),
   ("chip_external_rev", .c_uint),
   ("family_id", .c_uint),
   ("ids_flags", .c_ulonglong),
   ("max_engine_clk", .c_ulonglong),
   ("max_memory_clk", .c_ulonglong),
   ("num_shader_engines", .c_uint),
   ("num_shader_arrays_per_engine", .c_uint),
   ("avail_quad_shader_pipes", .c_uint),
   ("max_quad_shader_pipes", .c_uint),
   ("cache_entries_per_quad_pipe", .c_uint),
   ("num_hw_gfx_contexts", .c_uint),
   ("rb_pipes", .c_uint),
   ("enabled_rb_pipes_mask", .c_uint),
   ("gpu_counter_freq", .c_uint),
   ("backend_disable", .c_array 4 .c_uint),
   ("mc_arb_ramcfg", .c_uint),
   ("gb_addr_cfg", .c_uint),
   ("gb_tile_mode", .c_array 32 .c_uint),
   ("gb_macro_tile_mode", .c_array 16 .c_uint),
   ("pa_sc_raster_cfg", .c_array 4 .c_uint),
   ("pa_sc_raster_cfg1", .c_array 4 .c_uint),
   ("cu_active_number", .c_uint),
   ("cu_ao_mask", .c_uint),
   ("cu_bitmap", .c_array 4 (.c_array 4 .c_uint)),
   ("vram_type", .c_uint),
   ("vram_bit_width", .c_uint),
   ("ce_ram_size", .c_uint),
   ("vce_harvest_config", .c_uint),
   ("pci_rev_id", .c_uint)]

/-- The Python-level value a freshly allocated (zeroed) ctypes field reads
back as: 0 for integers, an array of zeros, b"" for a char buffer. -/
def CKind.zeroVal : CKind → PyVal
  | .c_uint => .intVal 0
  | .c_ulonglong => .intVal 0
  | .c_array n k => .arrVal (List.replicate n k.zeroVal)
  | .c_char_array _ => .bytesVal []

/-- The value of `c_amdgpu_gpu_info()`: a zero-initialized record, as a
field-name/value association list. -/
def c_amdgpu_gpu_info_zero : List (String × PyVal) :=
  c_amdgpu_gpu_info_fields.map (fun p => (p.1, p.2.zeroVal))

/-! The process-global library singleton, the symbol cache, and the
external environment. -/

/-- A loaded CDLL: an identity plus the set of symbols it exports. -/
structure Library where
  libId : Nat
  symbols : List String
deriving DecidableEq, Repr

/-- The module-level mutable state: the `amdgpuLib` singleton and the
`_amdgpuGetFunctionPointer_cache` (modelled as the list of cached symbol
names; the cached pointer of a name is identified with the name). -/
structure LibState where
  amdgpuLib : Option Library
  cache : List String
deriving DecidableEq, Repr

/-- The state at module import time: no library, empty cache. -/
def initState : LibState := { amdgpuLib := none, cache := [] }

/-- Externally visible effects: CDLL load attempts, os.open and os.close
calls, and calls into native entry points. -/
inductive Event where
  | cdllAttempt (name : String) (success : Bool)
  | osOpenCall (path : String) (flags : Nat)
  | osCloseCall (fd : Nat)
  | nativeCall (symbol : String)
deriving DecidableEq, Repr

def os_O_RDONLY : Nat := 0

/-- The deterministic external world: the platform, the dynamic loader, the
filesystem, and the behavior of the three native entry points. -/
structure Env where
  isWindows : Bool
  cdll : String → Option Library
  osOpen : String → Except Int Nat
  nativeInit : Nat → Int × Nat × Nat × Nat
  nativeDeinit : Nat → Int
  nativeQuery : Nat → List (String × PyVal) → Int × List (String × PyVal)

/-- The candidate library names, in the priority order of the source. -/
def libLocations : List String := ["libdrm_amdgpu.so.1.0.0", "libdrm_amdgpu.so"]

/-- The `for loc in locs` loop body of `_LoadAMDGPULibrary`: try CDLL on
each candidate, stopping at the first success. -/
def tryLoadLocations (env : Env) : List String → Option Library × List Event
  | [] => (none, [])
  | loc :: rest =>
    match env.cdll loc with
    | some lib => (some lib, [.cdllAttempt loc true])
    | none =>
      let r := tryLoadLocations env rest
      (r.1, .cdllAttempt loc false :: r.2)

/-- `_LoadAMDGPULibrary`: do nothing when the singleton is already set;
otherwise fail on Windows, else try the candidates in order and fail with
LibraryNotFound when none loads.  (The source checks `amdgpuLib is None`
again under the lock; sequentially the two checks collapse into one.) -/
def _LoadAMDGPULibrary (env : Env) (s : LibState) :
    Except AMDGPUError Unit × LibState × List Event :=
  match s.amdgpuLib with
  | some _ => (.ok (), s, [])
  | none =>
    if env.isWindows then
      (.error (AMDGPUError.make AMDGPU_ERROR_LIBRARY_NOT_FOUND), s, [])
    else
      match tryLoadLocations env libLocations with
      | (some lib, evs) => (.ok (), { s with amdgpuLib := some lib }, evs)
      | (none, evs) => (.error (AMDGPUError.make AMDGPU_ERROR_LIBRARY_NOT_FOUND), s, evs)

/-- `_amdgpuGetFunctionPointer`: return a cached pointer; otherwise fail
with Uninitialized when no library is loaded, cache and return the symbol
when the library has it, and fail with FunctionNotFound when it does not
(an AttributeError from getattr). -/
def _amdgpuGetFunctionPointer (s : LibState) (name : String) :
    Except AMDGPUError String × LibState :=
  if name ∈ s.cache then (.ok name, s)
  else
    match s.amdgpuLib with
    | none => (.error (AMDGPUError.make AMDGPU_ERROR_UNINITIALIZED), s)
    | some lib =>
      if name ∈ lib.symbols then (.ok name, { s with cache := name :: s.cache })
      else (.error (AMDGPUError.make AMDGPU_ERROR_FUNCTION_NOT_FOUND), s)

/-! The three public device operations. -/

/-- `amdgpu_device_initialize(card)`: load the library, open
/dev/dri/card<card> read-only, resolve and call the native entry point,
check its return code, and return (major, minor, device). -/
def amdgpu_device_initialize (env : Env) (s : LibState) (card : Nat) :
    Except PyErr (Nat × Nat × Nat) × LibState × List Event :=
  match _LoadAMDGPULibrary env s with
  | (.error e, s1, evs) => (.error (.amdgpuErr e), s1, evs)
  | (.ok _, s1, evs) =>
    match env.osOpen ("/dev/dri/card" ++ toString card) with
    | .error e => (.error (.osError e), s1,
        evs ++ [.osOpenCall ("/dev/dri/card" ++ toString card) os_O_RDONLY])
    | .ok fd =>
      match _amdgpuGetFunctionPointer s1 "amdgpu_device_initialize" with
      | (.error e, s2) => (.error (.amdgpuErr e), s2,
          evs ++ [.osOpenCall ("/dev/dri/card" ++ toString card) os_O_RDONLY])
      | (.ok _, s2) =>
        match env.nativeInit fd with
        | (ret, major, minor, device) =>
          match _amdgpuCheckReturn ret with
          | .error e => (.error (.amdgpuErr e), s2,
              evs ++ [.osOpenCall ("/dev/dri/card" ++ toString card) os_O_RDONLY,
                .nativeCall "amdgpu_device_initialize"])
          | .ok _ => (.ok (major, minor, device), s2,
              evs ++ [.osOpenCall ("/dev/dri/card" ++ toString card) os_O_RDONLY,
                .nativeCall "amdgpu_device_initialize"])

/-- The Python signature defaults the card index to 1. -/
def amdgpu_device_initialize_default (env : Env) (s : LibState) :
    Except PyErr (Nat × Nat × Nat) × LibState × List Event :=
  amdgpu_device_initialize env s 1

/-- `amdgpu_device_deinitialize(device)`. -/
def amdgpu_device_deinitialize (env : Env) (s : LibState) (device : Nat) :
    Except PyErr Unit × LibState × List Event :=
  match _amdgpuGetFunctionPointer s "amdgpu_device_deinitialize" with
  | (.error e, s1) => (.error (.amdgpuErr e), s1, [])
  | (.ok _, s1) =>
    match _amdgpuCheckReturn (env.nativeDeinit device) with
    | .error e => (.error (.amdgpuErr e), s1, [.nativeCall "amdgpu_device_deinitialize"])
    | .ok _ => (.ok (), s1, [.nativeCall "amdgpu_device_deinitialize"])

/-- `amdgpu_query_gpu_info(device)`: allocate a zeroed record, resolve and
call the native entry point, check its return, and give back the record
the native call populated. -/
def amdgpu_query_gpu_info (env : Env) (s : LibState) (device : Nat) :
    Except PyErr (List (String × PyVal)) × LibState × List Event :=
  let c_info := c_amdgpu_gpu_info_zero
  match _amdgpuGetFunctionPointer s "amdgpu_query_gpu_info" with
  | (.error e, s1) => (.error (.amdgpuErr e), s1, [])
  | (.ok _, s1) =>
    match env.nativeQuery device c_info with
    | (ret, info) =>
      match _amdgpuCheckReturn ret with
      | .error e => (.error (.amdgpuErr e), s1, [.nativeCall "amdgpu_query_gpu_info"])
      | .ok _ => (.ok info, s1, [.nativeCall "amdgpu_query_gpu_info"])

/-! Iterated calls, used for the idempotence and no-negative-caching
claims.  Each list entry records one call: its result, the state after it,
and the events it emitted. -/

def loadCalls (env : Env) : Nat → LibState → List (Except AMDGPUError Unit × LibState × List Event)
  | 0, _ => []
  | n + 1, s =>
    let r := _LoadAMDGPULibrary env s
    r :: loadCalls env n r.2.1

def resolveCalls (name : String) : Nat → LibState → List (Except AMDGPUError String)
  | 0, _ => []
  | n + 1, s =>
    let r := _amdgpuGetFunctionPointer s name
    r.1 :: resolveCalls name n r.2

def Event.isSuccessfulLoadAttempt : Event → Bool
  | .cdllAttempt _ true => true
  | _ => false

def Event.isOsClose : Event → Bool
  | .osCloseCall _ => true
  | _ => false

/-- All events emitted across a list of recorded calls. -/
def callEvents (l : List (Except AMDGPUError Unit × LibState × List Event)) : List Event :=
  (l.map (fun r => r.2.2)).flatten

/-! The struct marshaller: text-field encode/decode and the two
struct/friendly-object conversions. -/

def exceptOk {ε α : Type} : Except ε α → Bool
  | .ok _ => true
  | .error _ => false

/-- ctypes assignment of a bytes value into a c_char array of width w:
null-padded when shorter, rejected when longer. -/
def c_char_array_store (w : Nat) (b : List Nat) : Except PyErr (List Nat) :=
  if b.length ≤ w then .ok (b ++ List.replicate (w - b.length) 0) else .error .valueError

/-- ctypes read of a c_char array field: the bytes up to the first NUL. -/
def c_char_array_load (buf : List Nat) : List Nat :=
  buf.takeWhile (fun b => b != 0)

/-- `_PrintableStructure.__setattr__` on a c_char-array field: a str value
is encoded to bytes first, then stored by ctypes. -/
def printableSetText (w : Nat) (v : PyVal) : Except PyErr (List Nat) :=
  match v with
  | .strVal s => c_char_array_store w (pyEncode s)
  | .bytesVal b => c_char_array_store w b
  | _ => .error .typeError

/-- `_PrintableStructure.__getattribute__` on a c_char-array field: ctypes
yields the stored bytes up to the first NUL, which are then decoded. -/
def printableGetText (buf : List Nat) : Except PyErr String :=
  match utf8Decode (c_char_array_load buf) with
  | some cs => .ok (String.mk cs)
  | none => .error .unicodeDecodeError

def isTextFieldKind : CKind → Bool
  | .c_char_array _ => true
  | _ => false

/-- Python `value.encode()`: only str has the method; on any other value
the attribute access raises AttributeError. -/
def PyVal.encodeMethod : PyVal → Except PyErr (List Nat)
  | .strVal s => .ok (pyEncode s)
  | _ => .error .attributeError

/-- `_PrintableStructure.__getattribute__` in general: every value passes
through unchanged except bytes, which are decoded to str. -/
def printableGetattr (v : PyVal) : Except PyErr PyVal :=
  match v with
  | .bytesVal b =>
    match utf8Decode b with
    | some cs => .ok (.strVal (String.mk cs))
    | none => .error .unicodeDecodeError
  | v => .ok v

/-- `amdgpuStructToFriendlyObject`: build the friendly object's attribute
dictionary field by field.  Each value is read through
`_PrintableStructure.__getattribute__` and then passed through the
source's `value.decode() if isinstance(value, bytes) else value` step
(behaviorally the same decode-if-bytes transformation, kept for
fidelity even though the first step never yields bytes). -/
def amdgpuStructToFriendlyObject (fields : List (String × CKind))
    (struct : List (String × PyVal)) : Except PyErr (List (String × PyVal)) :=
  match fields with
  | [] => .ok []
  | (key, _) :: rest =>
    match struct.lookup key with
    | none => .error .attributeError
    | some raw =>
      match printableGetattr raw with
      | .error e => .error e
      | .ok v =>
        match printableGetattr v with
        | .error e => .error e
        | .ok v2 =>
          match amdgpuStructToFriendlyObject rest struct with
          | .error e => .error e
          | .ok d => .ok ((key, v2) :: d)

/-- Assignment of one field of the model struct.  (The ctypes-level type
check of the assigned value is elided: it could only add further error
cases after the unconditional `.encode()` call, which is what the claims
are about.) -/
def setStructField (struct : List (String × PyVal)) (key : String) (v : PyVal) :
    List (String × PyVal) :=
  struct.map (fun p => if p.1 = key then (key, v) else p)

/-- `amdgpuFriendlyObjectToStruct`: for each model field, fetch the
attribute from the object's dict and call `.encode()` on it
unconditionally, then assign the bytes into the model struct. -/
def amdgpuFriendlyObjectToStruct (obj : List (String × PyVal))
    (fields : List (String × CKind)) (model : List (String × PyVal)) :
    Except PyErr (List (String × PyVal)) :=
  match fields with
  | [] => .ok model
  | (key, _) :: rest =>
    match obj.lookup key with
    | none => .error .keyError
    | some v =>
      match v.encodeMethod with
      | .error e => .error e
      | .ok b => amdgpuFriendlyObjectToStruct obj rest (setStructField model key (.bytesVal b))

/-! Typing of runtime values against the field kinds of
c_amdgpu_gpu_info (whose arrays are only flat or doubly nested arrays
of c_uint). -/

/-- The Python value of a c_uint field: an int in 32-bit range. -/
def PyVal.isU32 : PyVal → Bool
  | .intVal n => decide (0 ≤ n) && decide (n < 4294967296)
  | _ => false

/-- An integer or ctypes-array value (never a str). -/
def PyVal.isIntish : PyVal → Bool
  | .intVal _ => true
  | .arrVal _ => true
  | _ => false

/-- Integer or integer-array field kinds, as opposed to text fields. -/
def CKind.isIntegerKind : CKind → Bool
  | .c_uint => true
  | .c_ulonglong => true
  | .c_array _ _ => true
  | .c_char_array _ => false

/-- Does a runtime value fit a field kind (for the kinds occurring in
c_amdgpu_gpu_info)? -/
def CKind.matchesVal : CKind → PyVal → Bool
  | .c_uint, v => v.isU32
  | .c_ulonglong, .intVal n => decide (0 ≤ n) && decide (n < 18446744073709551616)
  | .c_array m .c_uint, .arrVal xs => (xs.length == m) && xs.all PyVal.isU32
  | .c_array m (.c_array p .c_uint), .arrVal xs =>
    (xs.length == m) && xs.all (fun x =>
      match x with
      | .arrVal ys => (ys.length == p) && ys.all PyVal.isU32
      | _ => false)
  | .c_char_array m, .bytesVal b => decide (b.length ≤ m)
  | _, _ => false

/-- A struct value assigns, in field order, a well-typed value to every
field of the layout. -/
def structWellTyped : List (String × CKind) → List (String × PyVal) → Bool
  | [], [] => true
  | (k, kd) :: fs, (k2, v) :: vs => (k == k2) && kd.matchesVal v && structWellTyped fs vs
  | _, _ => false

/-! A concrete stub world, used to instantiate the theorems on explicit
inputs: a Linux host whose first candidate library loads and exposes the
init and deinit entry points but not the query one. -/

def libStub : Library :=
  { libId := 1, symbols := ["amdgpu_device_initialize", "amdgpu_device_deinitialize"] }

def envStub : Env :=
  { isWindows := false
    cdll := fun nm => if nm = "libdrm_amdgpu.so.1.0.0" then some libStub else none
    osOpen := fun _ => .ok 3
    nativeInit := fun _ => (0, 3, 57, 7)
    nativeDeinit := fun _ => 0
    nativeQuery := fun _ info => (0, info) }

/-! Theorems. -/

lemma lookup_extend_pos (x : Int) (hx : 0 < x) :
    _extend_errcode_to_string.lookup x = none := by
  have h1 : (x == AMDGPU_ERROR_UNINITIALIZED) = false := by
    rw [beq_eq_false_iff_ne]
    rw [AMDGPU_ERROR_UNINITIALIZED]
    omega
  have h2 : (x == AMDGPU_ERROR_FUNCTION_NOT_FOUND) = false := by
    rw [beq_eq_false_iff_ne]
    rw [AMDGPU_ERROR_FUNCTION_NOT_FOUND]
    omega
  have h3 : (x == AMDGPU_ERROR_LIBRARY_NOT_FOUND) = false := by
    rw [beq_eq_false_iff_ne]
    rw [AMDGPU_ERROR_LIBRARY_NOT_FOUND]
    omega
  simp [_extend_errcode_to_string, List.lookup, h1, h2, h3]

lemma make_of_not_extend (c : Int) (hc : _extend_errcode_to_string.lookup c = none) :
    AMDGPUError.make c = { value := -c } := by
  simp [AMDGPUError.make, hc]

/-- Claim C1 counterexample: at the concrete nonzero, non-sentinel code 12,
the produced error does not carry the sign-normalized code 12 (the source
negates the code instead of taking its absolute value), and with an errno
table mapping 12 to ENOMEM the message is the unknown-error fallback for
-12 rather than the errno-table name for 12. -/
theorem translate_abs_counterexample :
    (AMDGPUError.make 12).value = -12 ∧
    ¬ (AMDGPUError.make 12).value = 12 ∧
    AMDGPUError.message (fun n => if n = 12 then some "ENOMEM" else none)
        (AMDGPUError.make 12) = "Unknown AMDGPU error -12" := by
  refine ⟨rfl, by decide, rfl⟩

/-- Claim C1 (amended): translating code 0 produces success; each of the
three sentinel codes produces its fixed message independently of the OS
errno table; every other nonzero code c produces an error carrying the
negated code -c (which equals the sign-normalized code only when c is
negative), and for negative c the message is the OS errno-table name for
-c, falling back to an unknown-error message when -c is absent. -/
theorem translate_spec :
    (_amdgpuCheckReturn AMDGPU_SUCCESS = .ok 0) ∧
    (∀ errorcode : Int → Option String,
      _amdgpuCheckReturn AMDGPU_ERROR_UNINITIALIZED
          = .error { value := AMDGPU_ERROR_UNINITIALIZED } ∧
      AMDGPUError.message errorcode { value := AMDGPU_ERROR_UNINITIALIZED }
          = "AMDGPU error -99997: Library Not Initialized" ∧
      _amdgpuCheckReturn AMDGPU_ERROR_FUNCTION_NOT_FOUND
          = .error { value := AMDGPU_ERROR_FUNCTION_NOT_FOUND } ∧
      AMDGPUError.message errorcode { value := AMDGPU_ERROR_FUNCTION_NOT_FOUND }
          = "AMDGPU error -99998: Function Not Found" ∧
      _amdgpuCheckReturn AMDGPU_ERROR_LIBRARY_NOT_FOUND
          = .error { value := AMDGPU_ERROR_LIBRARY_NOT_FOUND } ∧
      AMDGPUError.message errorcode { value := AMDGPU_ERROR_LIBRARY_NOT_FOUND }
          = "AMDGPU error -99999: Library Not Found") ∧
    (∀ c : Int, c ≠ 0 → _extend_errcode_to_string.lookup c = none →
      _amdgpuCheckReturn c = .error { value := -c }) ∧
    (∀ (errorcode : Int → Option String) (c : Int), c < 0 →
      _extend_errcode_to_string.lookup c = none →
      AMDGPUError.message errorcode { value := -c } =
        match errorcode (-c) with
        | none => "Unknown AMDGPU error " ++ toString (-c)
        | some nm => "AMDGPU error " ++ toString (-c) ++ ": " ++ nm) := by
  refine ⟨rfl, fun errorcode => ⟨rfl, rfl, rfl, rfl, rfl, rfl⟩, ?_, ?_⟩
  · intro c hc hlk
    rw [_amdgpuCheckReturn, if_pos (by simpa [AMDGPU_SUCCESS] using hc),
      make_of_not_extend c hlk]
  · intro errorcode c hc _
    rw [AMDGPUError.message, lookup_extend_pos (-c) (by omega)]

/-- Claim C1 witness: the amended theorem evaluated at the concrete code -2
with an errno table mapping 2 to ENOENT. -/
theorem translate_spec_witness :
    _amdgpuCheckReturn (-2) = .error { value := 2 } ∧
    AMDGPUError.message (fun n => if n = 2 then some "ENOENT" else none) { value := 2 }
        = "AMDGPU error 2: ENOENT" := by
  have h1 := translate_spec.2.2.1 (-2) (by decide) (by rfl)
  have h2 := translate_spec.2.2.2 (fun n => if n = 2 then some "ENOENT" else none)
    (-2) (by decide) (by rfl)
  exact ⟨h1, h2⟩

/-- Claim C6: two AMDGPUError values compare equal exactly when their stored
codes match, and an AMDGPUError compares equal to a raw integer n exactly
when n equals its stored code. -/
theorem amdgpu_error_eq_spec :
    (∀ a b : Int,
      (AMDGPUError.make a).eq (.amdgpuErrorObj (AMDGPUError.make b)) = true ↔
        (AMDGPUError.make a).value = (AMDGPUError.make b).value) ∧
    (∀ (e : AMDGPUError) (n : Int), e.eq (.intObj n) = true ↔ n = e.value) := by
  constructor
  · intro a b
    simp only [AMDGPUError.eq, beq_iff_eq]
  · intro e n
    simp only [AMDGPUError.eq, beq_iff_eq]
    exact eq_comm

/-! Runtime values crossing the Python/ctypes boundary. -/

/-! Symbol resolution. -/

lemma resolve_uninit (s : LibState) (name : String)
    (hlib : s.amdgpuLib = none) (hcache : s.cache = []) :
    _amdgpuGetFunctionPointer s name
      = (.error (AMDGPUError.make AMDGPU_ERROR_UNINITIALIZED), s) := by
  simp [_amdgpuGetFunctionPointer, hcache, hlib]

lemma resolve_miss (s : LibState) (name : String) (lib : Library)
    (hlib : s.amdgpuLib = some lib) (hsym : name ∉ lib.symbols) (hcache : name ∉ s.cache) :
    _amdgpuGetFunctionPointer s name
      = (.error (AMDGPUError.make AMDGPU_ERROR_FUNCTION_NOT_FOUND), s) := by
  simp [_amdgpuGetFunctionPointer, hcache, hlib, hsym]

lemma resolveCalls_miss (s : LibState) (name : String) (lib : Library) (k : Nat)
    (hlib : s.amdgpuLib = some lib) (hsym : name ∉ lib.symbols) (hcache : name ∉ s.cache) :
    resolveCalls name k s
      = List.replicate k (.error (AMDGPUError.make AMDGPU_ERROR_FUNCTION_NOT_FOUND)) := by
  induction k with
  | zero => rfl
  | succ n ih =>
    simp only [resolveCalls, resolve_miss s name lib hlib hsym hcache]
    rw [ih]
    rfl

/-- Claim C4: resolve(name) fails with Uninitialized whenever the library
was never loaded (no library, hence nothing cached), fails with
FunctionNotFound whenever the loaded library lacks the symbol, and never
caches a miss: the state is unchanged and every one of k repeated calls
fails with FunctionNotFound again. -/
theorem resolve_spec :
    (∀ (s : LibState) (name : String), s.amdgpuLib = none → s.cache = [] →
      _amdgpuGetFunctionPointer s name
        = (.error (AMDGPUError.make AMDGPU_ERROR_UNINITIALIZED), s)) ∧
    (∀ (s : LibState) (name : String) (lib : Library),
      s.amdgpuLib = some lib → name ∉ lib.symbols → name ∉ s.cache →
      _amdgpuGetFunctionPointer s name
        = (.error (AMDGPUError.make AMDGPU_ERROR_FUNCTION_NOT_FOUND), s)) ∧
    (∀ (s : LibState) (name : String) (lib : Library) (k : Nat),
      s.amdgpuLib = some lib → name ∉ lib.symbols → name ∉ s.cache →
      resolveCalls name k s
        = List.replicate k (.error (AMDGPUError.make AMDGPU_ERROR_FUNCTION_NOT_FOUND))) :=
  ⟨fun s name h1 h2 => resolve_uninit s name h1 h2,
   fun s name lib h1 h2 h3 => resolve_miss s name lib h1 h2 h3,
   fun s name lib k h1 h2 h3 => resolveCalls_miss s name lib k h1 h2 h3⟩

/-- Claim C4 witness: resolution before any load on the initial state, and
three repeated resolutions of the missing query symbol against the stub
library. -/
theorem resolve_spec_witness :
    _amdgpuGetFunctionPointer initState "amdgpu_query_gpu_info"
      = (.error (AMDGPUError.make AMDGPU_ERROR_UNINITIALIZED), initState) ∧
    _amdgpuGetFunctionPointer { amdgpuLib := some libStub, cache := [] } "amdgpu_query_gpu_info"
      = (.error (AMDGPUError.make AMDGPU_ERROR_FUNCTION_NOT_FOUND),
         { amdgpuLib := some libStub, cache := [] }) ∧
    resolveCalls "amdgpu_query_gpu_info" 3 { amdgpuLib := some libStub, cache := [] }
      = List.replicate 3 (.error (AMDGPUError.make AMDGPU_ERROR_FUNCTION_NOT_FOUND)) :=
  ⟨resolve_spec.1 initState "amdgpu_query_gpu_info" rfl rfl,
   resolve_spec.2.1 { amdgpuLib := some libStub, cache := [] } "amdgpu_query_gpu_info"
     libStub rfl (by decide) (by decide),
   resolve_spec.2.2 { amdgpuLib := some libStub, cache := [] } "amdgpu_query_gpu_info"
     libStub 3 rfl (by decide) (by decide)⟩

/-- Claim C10: before any load, query_gpu_info and deinitialize fail with
Uninitialized (an error distinct from LibraryNotFound), leave the library
singleton and the symbol cache unchanged, and attempt no library load and
no native call (their event traces are empty). -/
theorem query_deinit_before_load_spec :
    ∀ (env : Env) (device : Nat),
      amdgpu_query_gpu_info env initState device
        = (.error (.amdgpuErr (AMDGPUError.make AMDGPU_ERROR_UNINITIALIZED)), initState, []) ∧
      amdgpu_device_deinitialize env initState device
        = (.error (.amdgpuErr (AMDGPUError.make AMDGPU_ERROR_UNINITIALIZED)), initState, []) ∧
      AMDGPUError.make AMDGPU_ERROR_UNINITIALIZED
        ≠ AMDGPUError.make AMDGPU_ERROR_LIBRARY_NOT_FOUND :=
  fun env device => ⟨rfl, rfl, by decide⟩

/-- Claim C7: when the loaded library lacks amdgpu_query_gpu_info, every
call to query_gpu_info fails with FunctionNotFound and performs no native
call to the initialize or deinitialize entry points (its event trace is
empty, the state untouched). -/
theorem query_missing_symbol_spec :
    ∀ (env : Env) (s : LibState) (device : Nat) (lib : Library),
      s.amdgpuLib = some lib →
      "amdgpu_query_gpu_info" ∉ lib.symbols →
      "amdgpu_query_gpu_info" ∉ s.cache →
      amdgpu_query_gpu_info env s device
        = (.error (.amdgpuErr (AMDGPUError.make AMDGPU_ERROR_FUNCTION_NOT_FOUND)), s, []) ∧
      Event.nativeCall "amdgpu_device_initialize"
        ∉ (amdgpu_query_gpu_info env s device).2.2 ∧
      Event.nativeCall "amdgpu_device_deinitialize"
        ∉ (amdgpu_query_gpu_info env s device).2.2 := by
  intro env s device lib hlib hsym hcache
  have h := resolve_miss s "amdgpu_query_gpu_info" lib hlib hsym hcache
  have hq : amdgpu_query_gpu_info env s device
      = (.error (.amdgpuErr (AMDGPUError.make AMDGPU_ERROR_FUNCTION_NOT_FOUND)), s, []) := by
    simp [amdgpu_query_gpu_info, h]
  refine ⟨hq, ?_, ?_⟩ <;> simp [hq]

/-- Claim C7 witness: the stub library, which lacks the query symbol. -/
theorem query_missing_symbol_witness :
    amdgpu_query_gpu_info envStub { amdgpuLib := some libStub, cache := [] } 7
      = (.error (.amdgpuErr (AMDGPUError.make AMDGPU_ERROR_FUNCTION_NOT_FOUND)),
         { amdgpuLib := some libStub, cache := [] }, []) ∧
    Event.nativeCall "amdgpu_device_initialize"
      ∉ (amdgpu_query_gpu_info envStub { amdgpuLib := some libStub, cache := [] } 7).2.2 ∧
    Event.nativeCall "amdgpu_device_deinitialize"
      ∉ (amdgpu_query_gpu_info envStub { amdgpuLib := some libStub, cache := [] } 7).2.2 :=
  query_missing_symbol_spec envStub { amdgpuLib := some libStub, cache := [] } 7 libStub
    rfl (by decide) (by decide)

/-! The initialize operation. -/

lemma load_already (env : Env) (s : LibState) (lib : Library) (h : s.amdgpuLib = some lib) :
    _LoadAMDGPULibrary env s = (.ok (), s, []) := by
  unfold _LoadAMDGPULibrary
  rw [h]

lemma tryLoadLocations_no_close (env : Env) (locs : List String) :
    ((tryLoadLocations env locs).2.all (fun ev => !ev.isOsClose)) = true := by
  induction locs with
  | nil => rfl
  | cons loc rest ih =>
    unfold tryLoadLocations
    cases h : env.cdll loc with
    | some lib => rfl
    | none =>
      simpa [Event.isOsClose] using ih

lemma load_no_close (env : Env) (s : LibState) :
    ((_LoadAMDGPULibrary env s).2.2.all (fun ev => !ev.isOsClose)) = true := by
  unfold _LoadAMDGPULibrary
  cases hs : s.amdgpuLib with
  | some lib => rfl
  | none =>
    have hno := tryLoadLocations_no_close env libLocations
    by_cases hw : env.isWindows = true
    · rw [if_pos hw]
      rfl
    · rw [if_neg hw]
      cases htl : tryLoadLocations env libLocations with
      | mk fst snd =>
        rw [htl] at hno
        cases fst with
        | some lib => exact hno
        | none => exact hno

/-- Claim C8: on every path of initialize (load failure, open failure,
resolution failure, nonzero native return, success) the event trace
contains no os.close call: the file descriptor opened for the device node
is never closed by this layer. -/
theorem initialize_never_closes_fd :
    ∀ (env : Env) (s : LibState) (card : Nat),
      ((( amdgpu_device_initialize env s card).2.2).all (fun ev => !ev.isOsClose)) = true := by
  intro env s card
  have hload := load_no_close env s
  rcases hL : _LoadAMDGPULibrary env s with ⟨r, s1, evs⟩
  rw [hL] at hload
  have hload2 : ∀ x ∈ evs, x.isOsClose = false := by simpa using hload
  rcases r with e | u
  · simpa [ amdgpu_device_initialize, hL] using hload
  · rcases hO : env.osOpen ("/dev/dri/card" ++ toString card) with e | fd
    · simp [ amdgpu_device_initialize, hL, hO, List.all_append, Event.isOsClose]
      exact fun x hx => hload2 x hx
    · rcases hF : _amdgpuGetFunctionPointer s1 "amdgpu_device_initialize" with ⟨rr, s2⟩
      rcases rr with e | fn
      · simp [ amdgpu_device_initialize, hL, hO, hF, List.all_append, Event.isOsClose]
        exact fun x hx => hload2 x hx
      · rcases hN : env.nativeInit fd with ⟨ret, major, minor, device⟩
        rcases hC : _amdgpuCheckReturn ret with e | z
        · simp [ amdgpu_device_initialize, hL, hO, hF, hN, hC, List.all_append,
            Event.isOsClose]
          exact fun x hx => hload2 x hx
        · simp [ amdgpu_device_initialize, hL, hO, hF, hN, hC, List.all_append,
            Event.isOsClose]
          exact fun x hx => hload2 x hx

lemma resolve_hit (s : LibState) (name : String) (lib : Library)
    (hlib : s.amdgpuLib = some lib)
    (h : name ∈ lib.symbols ∨ name ∈ s.cache) :
    ∃ s2 : LibState, _amdgpuGetFunctionPointer s name = (.ok name, s2) := by
  by_cases hc : name ∈ s.cache
  · exact ⟨s, by simp [_amdgpuGetFunctionPointer, hc]⟩
  · rcases h with h | h
    · exact ⟨{ s with cache := name :: s.cache },
        by simp [_amdgpuGetFunctionPointer, hc, hlib, h]⟩
    · exact absurd h hc

lemma checkReturn_ne (ret : Int) (h : ret ≠ 0) :
    _amdgpuCheckReturn ret = .error (AMDGPUError.make ret) := by
  have h2 : ret ≠ AMDGPU_SUCCESS := by rw [AMDGPU_SUCCESS]; exact h
  unfold _amdgpuCheckReturn
  rw [if_pos h2]

lemma message_of_pos (errorcode : Int → Option String) (x : Int) (hx : 0 < x) :
    AMDGPUError.message errorcode { value := x } =
      match errorcode x with
      | none => "Unknown AMDGPU error " ++ toString x
      | some nm => "AMDGPU error " ++ toString x ++ ": " ++ nm := by
  simp only [AMDGPUError.message]
  rw [lookup_extend_pos x hx]

/-- Claim C2: with the library loaded, initialize(card) (default card 1)
opens /dev/dri/card<card> read-only (the open call is in its event trace),
propagates an OS-level error when the open fails, raises the translated
AMDGPUError and returns no triple when the native entry point returns
nonzero, and returns the (major, minor, device) triple the native call
produced when it returns zero; for the example nonzero return -12 the
raised error carries the sign-normalized code 12 and its message comes
from the OS errno-table entry for 12.  When the library is not yet loaded
the load comes first: on an unsupported platform initialize fails with
LibraryNotFound before any open. -/
theorem initialize_spec :
    (∀ (env : Env) (s : LibState),
      amdgpu_device_initialize_default env s = amdgpu_device_initialize env s 1) ∧
    (∀ (env : Env) (s : LibState) (card : Nat) (lib : Library),
      s.amdgpuLib = some lib →
      (Event.osOpenCall ("/dev/dri/card" ++ toString card) os_O_RDONLY
          ∈ ( amdgpu_device_initialize env s card).2.2) ∧
      (∀ e : Int, env.osOpen ("/dev/dri/card" ++ toString card) = .error e →
        ( amdgpu_device_initialize env s card).1 = .error (.osError e)) ∧
      ("amdgpu_device_initialize" ∈ lib.symbols →
        ∀ fd : Nat, env.osOpen ("/dev/dri/card" ++ toString card) = .ok fd →
          ∀ (ret : Int) (major minor device : Nat),
            env.nativeInit fd = (ret, major, minor, device) →
            (ret ≠ 0 → ( amdgpu_device_initialize env s card).1
                = .error (.amdgpuErr (AMDGPUError.make ret))) ∧
            (ret = 0 → ( amdgpu_device_initialize env s card).1
                = .ok (major, minor, device)))) ∧
    (∀ (errorcode : Int → Option String) (nm : String), errorcode 12 = some nm →
      (AMDGPUError.make (-12)).value = 12 ∧
      AMDGPUError.message errorcode (AMDGPUError.make (-12)) = "AMDGPU error 12: " ++ nm) ∧
    (∀ (env : Env) (s : LibState) (card : Nat),
      s.amdgpuLib = none → env.isWindows = true →
      amdgpu_device_initialize env s card
        = (.error (.amdgpuErr (AMDGPUError.make AMDGPU_ERROR_LIBRARY_NOT_FOUND)), s, [])) := by
  refine ⟨fun env s => rfl, ?_, ?_, ?_⟩
  · intro env s card lib hlib
    have hload := load_already env s lib hlib
    refine ⟨?_, ?_, ?_⟩
    · rcases hO : env.osOpen ("/dev/dri/card" ++ toString card) with e | fd
      · simp [ amdgpu_device_initialize, hload, hO]
      · rcases hF : _amdgpuGetFunctionPointer s "amdgpu_device_initialize" with ⟨rr, s2⟩
        rcases rr with e | fn
        · simp [ amdgpu_device_initialize, hload, hO, hF]
        · rcases hN : env.nativeInit fd with ⟨ret, major, minor, device⟩
          rcases hC : _amdgpuCheckReturn ret with e | z
          · simp [ amdgpu_device_initialize, hload, hO, hF, hN, hC]
          · simp [ amdgpu_device_initialize, hload, hO, hF, hN, hC]
    · intro e hO
      simp [ amdgpu_device_initialize, hload, hO]
    · intro hsym fd hO ret major minor device hN
      obtain ⟨s2, hres⟩ := resolve_hit s "amdgpu_device_initialize" lib hlib (Or.inl hsym)
      constructor
      · intro hret
        simp [ amdgpu_device_initialize, hload, hO, hres, hN, checkReturn_ne ret hret]
      · intro hret
        subst hret
        simp [ amdgpu_device_initialize, hload, hO, hres, hN, _amdgpuCheckReturn,
          AMDGPU_SUCCESS]
  · intro errorcode nm h
    have hv : AMDGPUError.make (-12) = { value := 12 } := by rfl
    refine ⟨by rw [hv], ?_⟩
    rw [hv, message_of_pos errorcode 12 (by omega), h]
    rfl
  · intro env s card hs hw
    have hstep : _LoadAMDGPULibrary env s
        = (.error (AMDGPUError.make AMDGPU_ERROR_LIBRARY_NOT_FOUND), s, []) := by
      unfold _LoadAMDGPULibrary
      rw [hs]
      simp [hw]
    unfold amdgpu_device_initialize
    rw [hstep]

/-- Claim C2 witness: the stub world, whose native initialize entry point
returns 0 and writes (3, 57, 7), applied at card 0; plus the -12 example
against an errno table mapping 12 to ENOMEM. -/
theorem initialize_spec_witness :
    ( amdgpu_device_initialize envStub { amdgpuLib := some libStub, cache := [] } 0).1
      = .ok (3, 57, 7) ∧
    (AMDGPUError.make (-12)).value = 12 ∧
    AMDGPUError.message (fun n => if n = 12 then some "ENOMEM" else none)
      (AMDGPUError.make (-12)) = "AMDGPU error 12: " ++ "ENOMEM" := by
  have h := initialize_spec.2.1 envStub { amdgpuLib := some libStub, cache := [] } 0 libStub rfl
  have h12 := initialize_spec.2.2.1 (fun n => if n = 12 then some "ENOMEM" else none)
    "ENOMEM" rfl
  exact ⟨(h.2.2 (by decide) 3 rfl 0 3 57 7 rfl).2 rfl, h12.1, h12.2⟩

/-! The library loader: idempotence, at most one successful load, fixed
candidate order. -/

lemma loadCalls_loaded (env : Env) (s : LibState) (lib : Library)
    (h : s.amdgpuLib = some lib) :
    ∀ n : Nat, loadCalls env n s = List.replicate n (.ok (), s, []) := by
  intro n
  induction n with
  | zero => rfl
  | succ m ih =>
    simp only [loadCalls, load_already env s lib h]
    rw [ih]
    rfl

lemma loadCalls_fix (env : Env) (s : LibState)
    (r : Except AMDGPUError Unit × LibState × List Event)
    (h : _LoadAMDGPULibrary env s = r) (hs : r.2.1 = s) :
    ∀ n : Nat, loadCalls env n s = List.replicate n r := by
  intro n
  induction n with
  | zero => rfl
  | succ m ih =>
    simp only [loadCalls, h, hs]
    rw [ih]
    rfl

lemma load_step_windows (env : Env) (s : LibState) (hs : s.amdgpuLib = none)
    (hw : env.isWindows = true) :
    _LoadAMDGPULibrary env s
      = (.error (AMDGPUError.make AMDGPU_ERROR_LIBRARY_NOT_FOUND), s, []) := by
  unfold _LoadAMDGPULibrary
  rw [hs]
  simp [hw]

lemma load_step_first (env : Env) (s : LibState) (lib : Library) (hs : s.amdgpuLib = none)
    (hw : env.isWindows = false)
    (h1 : env.cdll "libdrm_amdgpu.so.1.0.0" = some lib) :
    _LoadAMDGPULibrary env s
      = (.ok (), { s with amdgpuLib := some lib },
         [.cdllAttempt "libdrm_amdgpu.so.1.0.0" true]) := by
  unfold _LoadAMDGPULibrary
  rw [hs]
  simp [hw, tryLoadLocations, libLocations, h1]

lemma load_step_second (env : Env) (s : LibState) (lib : Library) (hs : s.amdgpuLib = none)
    (hw : env.isWindows = false)
    (h1 : env.cdll "libdrm_amdgpu.so.1.0.0" = none)
    (h2 : env.cdll "libdrm_amdgpu.so" = some lib) :
    _LoadAMDGPULibrary env s
      = (.ok (), { s with amdgpuLib := some lib },
         [.cdllAttempt "libdrm_amdgpu.so.1.0.0" false,
          .cdllAttempt "libdrm_amdgpu.so" true]) := by
  unfold _LoadAMDGPULibrary
  rw [hs]
  simp [hw, tryLoadLocations, libLocations, h1, h2]

lemma load_step_fail (env : Env) (s : LibState) (hs : s.amdgpuLib = none)
    (hw : env.isWindows = false)
    (h1 : env.cdll "libdrm_amdgpu.so.1.0.0" = none)
    (h2 : env.cdll "libdrm_amdgpu.so" = none) :
    _LoadAMDGPULibrary env s
      = (.error (AMDGPUError.make AMDGPU_ERROR_LIBRARY_NOT_FOUND), s,
         [.cdllAttempt "libdrm_amdgpu.so.1.0.0" false,
          .cdllAttempt "libdrm_amdgpu.so" false]) := by
  unfold _LoadAMDGPULibrary
  rw [hs]
  simp [hw, tryLoadLocations, libLocations, h1, h2]

lemma callEvents_cons (r : Except AMDGPUError Unit × LibState × List Event)
    (l : List (Except AMDGPUError Unit × LibState × List Event)) :
    callEvents (r :: l) = r.2.2 ++ callEvents l := by
  simp [callEvents]

lemma countP_callEvents_replicate (p : Event → Bool)
    (n : Nat) (r : Except AMDGPUError Unit × LibState × List Event) :
    (callEvents (List.replicate n r)).countP p = n * (r.2.2.countP p) := by
  induction n with
  | zero => simp [callEvents]
  | succ m ih =>
    rw [List.replicate_succ, callEvents_cons, List.countP_append, ih]
    ring

/-- Claim C3: across any number N of load() calls from the initial state,
at most one CDLL attempt ever succeeds; all successfully returning calls
leave the same, present library singleton; every call tries the candidate
names in the fixed priority order, stopping at the first success; and a
call fails, with LibraryNotFound, exactly when the platform is Windows or
both candidates fail to load. -/
theorem load_idempotent_spec :
    ∀ (env : Env) (N : Nat),
      ((callEvents (loadCalls env N initState)).countP Event.isSuccessfulLoadAttempt ≤ 1) ∧
      (∀ r1 ∈ loadCalls env N initState, ∀ r2 ∈ loadCalls env N initState,
        exceptOk r1.1 = true → exceptOk r2.1 = true →
        r1.2.1.amdgpuLib = r2.2.1.amdgpuLib ∧ r1.2.1.amdgpuLib.isSome = true) ∧
      (∀ r ∈ loadCalls env N initState,
        r.2.2 = [] ∨
        r.2.2 = [.cdllAttempt "libdrm_amdgpu.so.1.0.0" true] ∨
        r.2.2 = [.cdllAttempt "libdrm_amdgpu.so.1.0.0" false,
                 .cdllAttempt "libdrm_amdgpu.so" true] ∨
        r.2.2 = [.cdllAttempt "libdrm_amdgpu.so.1.0.0" false,
                 .cdllAttempt "libdrm_amdgpu.so" false]) ∧
      (∀ r ∈ loadCalls env N initState,
        (exceptOk r.1 = false ↔
          (env.isWindows = true ∨
            (env.cdll "libdrm_amdgpu.so.1.0.0" = none ∧
             env.cdll "libdrm_amdgpu.so" = none))) ∧
        (exceptOk r.1 = false →
          r.1 = .error (AMDGPUError.make AMDGPU_ERROR_LIBRARY_NOT_FOUND))) := by
  intro env N
  by_cases hw : env.isWindows = true
  · have hstep := load_step_windows env initState rfl hw
    have hcalls := loadCalls_fix env initState _ hstep rfl N
    rw [hcalls]
    refine ⟨?_, ?_, ?_, ?_⟩
    · rw [countP_callEvents_replicate]
      simp
    · intro r1 h1 r2 h2 ho1 ho2
      rw [List.eq_of_mem_replicate h1] at ho1
      simp [exceptOk] at ho1
    · intro r hr
      rw [List.eq_of_mem_replicate hr]
      exact Or.inl rfl
    · intro r hr
      rw [List.eq_of_mem_replicate hr]
      constructor
      · simp [exceptOk, hw]
      · intro _
        rfl
  · have hwf : env.isWindows = false := by
      cases hb : env.isWindows
      · rfl
      · exact absurd hb hw
    cases h1 : env.cdll "libdrm_amdgpu.so.1.0.0" with
    | some lib =>
      have hstep : _LoadAMDGPULibrary env initState
          = (.ok (), { amdgpuLib := some lib, cache := [] },
             [.cdllAttempt "libdrm_amdgpu.so.1.0.0" true]) := by
        rw [load_step_first env initState lib rfl hwf h1]
        rfl
      cases N with
      | zero =>
        exact ⟨by simp [loadCalls, callEvents], by simp [loadCalls],
          by simp [loadCalls], by simp [loadCalls]⟩
      | succ n =>
        have hcalls : loadCalls env (n + 1) initState
            = (.ok (), { amdgpuLib := some lib, cache := [] },
               [.cdllAttempt "libdrm_amdgpu.so.1.0.0" true])
              :: List.replicate n
                  (.ok (), { amdgpuLib := some lib, cache := [] }, []) := by
          simp only [loadCalls, hstep]
          rw [loadCalls_loaded env { amdgpuLib := some lib, cache := [] } lib rfl n]
        rw [hcalls]
        refine ⟨?_, ?_, ?_, ?_⟩
        · rw [callEvents_cons, List.countP_append, countP_callEvents_replicate]
          simp [List.countP_cons, Event.isSuccessfulLoadAttempt]
        · intro r1 h1m r2 h2m ho1 ho2
          have e1 : r1.2.1 = { amdgpuLib := some lib, cache := [] } := by
            rcases List.mem_cons.mp h1m with h | h
            · subst h
              rfl
            · have hh := List.eq_of_mem_replicate h
              subst hh
              rfl
          have e2 : r2.2.1 = { amdgpuLib := some lib, cache := [] } := by
            rcases List.mem_cons.mp h2m with h | h
            · subst h
              rfl
            · have hh := List.eq_of_mem_replicate h
              subst hh
              rfl
          rw [e1, e2]
          exact ⟨rfl, rfl⟩
        · intro r hr
          rcases List.mem_cons.mp hr with h | h
          · subst h
            exact Or.inr (Or.inl rfl)
          · have hh := List.eq_of_mem_replicate h
            subst hh
            exact Or.inl rfl
        · intro r hr
          have he : exceptOk r.1 = true := by
            rcases List.mem_cons.mp hr with h | h
            · subst h
              rfl
            · have hh := List.eq_of_mem_replicate h
              subst hh
              rfl
          constructor
          · rw [he]
            simp [hwf, h1]
          · intro hfalse
            rw [he] at hfalse
            exact absurd hfalse (by simp)
    | none =>
      cases h2 : env.cdll "libdrm_amdgpu.so" with
      | some lib =>
        have hstep : _LoadAMDGPULibrary env initState
            = (.ok (), { amdgpuLib := some lib, cache := [] },
               [.cdllAttempt "libdrm_amdgpu.so.1.0.0" false,
                .cdllAttempt "libdrm_amdgpu.so" true]) := by
          rw [load_step_second env initState lib rfl hwf h1 h2]
          rfl
        cases N with
        | zero =>
          exact ⟨by simp [loadCalls, callEvents], by simp [loadCalls],
            by simp [loadCalls], by simp [loadCalls]⟩
        | succ n =>
          have hcalls : loadCalls env (n + 1) initState
              = (.ok (), { amdgpuLib := some lib, cache := [] },
                 [.cdllAttempt "libdrm_amdgpu.so.1.0.0" false,
                  .cdllAttempt "libdrm_amdgpu.so" true])
                :: List.replicate n
                    (.ok (), { amdgpuLib := some lib, cache := [] }, []) := by
            simp only [loadCalls, hstep]
            rw [loadCalls_loaded env { amdgpuLib := some lib, cache := [] } lib rfl n]
          rw [hcalls]
          refine ⟨?_, ?_, ?_, ?_⟩
          · rw [callEvents_cons, List.countP_append, countP_callEvents_replicate]
            simp [List.countP_cons, Event.isSuccessfulLoadAttempt]
          · intro r1 h1m r2 h2m ho1 ho2
            have e1 : r1.2.1 = { amdgpuLib := some lib, cache := [] } := by
              rcases List.mem_cons.mp h1m with h | h
              · subst h
                rfl
              · have hh := List.eq_of_mem_replicate h
                subst hh
                rfl
            have e2 : r2.2.1 = { amdgpuLib := some lib, cache := [] } := by
              rcases List.mem_cons.mp h2m with h | h
              · subst h
                rfl
              · have hh := List.eq_of_mem_replicate h
                subst hh
                rfl
            rw [e1, e2]
            exact ⟨rfl, rfl⟩
          · intro r hr
            rcases List.mem_cons.mp hr with h | h
            · subst h
              exact Or.inr (Or.inr (Or.inl rfl))
            · have hh := List.eq_of_mem_replicate h
              subst hh
              exact Or.inl rfl
          · intro r hr
            have he : exceptOk r.1 = true := by
              rcases List.mem_cons.mp hr with h | h
              · subst h
                rfl
              · have hh := List.eq_of_mem_replicate h
                subst hh
                rfl
            constructor
            · rw [he]
              simp [hwf, h2]
            · intro hfalse
              rw [he] at hfalse
              exact absurd hfalse (by simp)
      | none =>
        have hstep := load_step_fail env initState rfl hwf h1 h2
        have hcalls := loadCalls_fix env initState _ hstep rfl N
        rw [hcalls]
        refine ⟨?_, ?_, ?_, ?_⟩
        · rw [countP_callEvents_replicate]
          simp [List.countP_cons, Event.isSuccessfulLoadAttempt]
        · intro r1 h1m r2 h2m ho1 ho2
          rw [List.eq_of_mem_replicate h1m] at ho1
          simp [exceptOk] at ho1
        · intro r hr
          rw [List.eq_of_mem_replicate hr]
          exact Or.inr (Or.inr (Or.inr rfl))
        · intro r hr
          rw [List.eq_of_mem_replicate hr]
          constructor
          · simp [exceptOk, hwf, h1, h2]
          · intro _
            rfl

/-- Claim C3 witness: two load calls against the stub world: at most one
successful CDLL attempt in total, and the first call leaves a present
singleton. -/
theorem load_idempotent_witness :
    ((callEvents (loadCalls envStub 2 initState)).countP Event.isSuccessfulLoadAttempt ≤ 1) ∧
    (((Except.ok (), ({ amdgpuLib := some libStub, cache := [] } : LibState),
        [Event.cdllAttempt "libdrm_amdgpu.so.1.0.0" true])
      : Except AMDGPUError Unit × LibState × List Event).2.1.amdgpuLib.isSome = true) := by
  have hlist : loadCalls envStub 2 initState
      = [(Except.ok (), { amdgpuLib := some libStub, cache := [] },
          [Event.cdllAttempt "libdrm_amdgpu.so.1.0.0" true]),
         (Except.ok (), { amdgpuLib := some libStub, cache := [] }, [])] := by rfl
  refine ⟨(load_idempotent_spec envStub 2).1, ?_⟩
  exact ((load_idempotent_spec envStub 2).2.1
    (Except.ok (), { amdgpuLib := some libStub, cache := [] },
      [Event.cdllAttempt "libdrm_amdgpu.so.1.0.0" true])
    (by rw [hlist]; exact List.mem_cons_self _ _)
    (Except.ok (), { amdgpuLib := some libStub, cache := [] }, [])
    (by rw [hlist]; simp) rfl rfl).2

/-! Text-field marshalling. -/

lemma flatten_encode_ascii (cs : List Char) (h : ∀ c ∈ cs, c.toNat < 128) :
    (cs.map (fun c => utf8EncodeChar c.toNat)).flatten = cs.map Char.toNat := by
  induction cs with
  | nil => rfl
  | cons c rest ih =>
    have hc : c.toNat < 128 := h c (List.mem_cons_self c rest)
    have hrest := ih (fun x hx => h x (List.mem_cons_of_mem c hx))
    have hhead : utf8EncodeChar c.toNat = [c.toNat] := by
      unfold utf8EncodeChar
      rw [if_pos hc]
    simp only [List.map_cons, List.flatten_cons, hrest, hhead]
    rfl

lemma pyEncode_ascii (s : String) (h : ∀ c ∈ s.data, c.toNat < 128) :
    pyEncode s = s.data.map Char.toNat :=
  flatten_encode_ascii s.data h

lemma utf8DecodeOne_ascii (b : Nat) (rest : List Nat) (hb : b < 128) :
    utf8DecodeOne b rest = some (b, 0) := by
  unfold utf8DecodeOne
  rw [if_pos hb]

lemma utf8Decode_cons_ascii (b : Nat) (rest : List Nat) (hb : b < 128) :
    utf8Decode (b :: rest)
      = match utf8Decode rest with
        | some cs => some (Char.ofNat b :: cs)
        | none => none := by
  rw [utf8Decode, utf8DecodeOne_ascii b rest hb]
  simp

lemma utf8Decode_ascii (cs : List Char) (h : ∀ c ∈ cs, c.toNat < 128) :
    utf8Decode (cs.map Char.toNat) = some cs := by
  induction cs with
  | nil => simp [utf8Decode]
  | cons c rest ih =>
    have hc : c.toNat < 128 := h c (List.mem_cons_self c rest)
    have hrest := ih (fun x hx => h x (List.mem_cons_of_mem c hx))
    rw [List.map_cons, utf8Decode_cons_ascii c.toNat _ hc, hrest]
    simp [Char.ofNat_toNat]

lemma takeWhile_append_zeros (b : List Nat) (k : Nat) (h : ∀ x ∈ b, x ≠ 0) :
    (b ++ List.replicate k 0).takeWhile (fun x => x != 0) = b := by
  induction b with
  | nil =>
    cases k with
    | zero => rfl
    | succ m => simp [List.replicate_succ, List.takeWhile_cons]
  | cons x rest ih =>
    have hx : x ≠ 0 := h x (List.mem_cons_self x rest)
    have hrest := ih (fun y hy => h y (List.mem_cons_of_mem x hy))
    simp [List.takeWhile_cons, hx, hrest]

/-- Claim C5: the c_amdgpu_gpu_info layout contains no text field (the
claim's quantification over text fields of GpuInfoRecord ranges over an
empty set), and the text-field marshaller itself is lossless: writing any
NUL-free ASCII string that fits the field width through __setattr__ and
reading it back through __getattribute__ returns the original string. -/
theorem text_field_roundtrip_spec :
    (c_amdgpu_gpu_info_fields.filter (fun p => isTextFieldKind p.2) = []) ∧
    (∀ (w : Nat) (s : String),
      (∀ c ∈ s.data, 0 < c.toNat ∧ c.toNat < 128) →
      s.data.length ≤ w →
      (printableSetText w (.strVal s)).bind printableGetText = .ok s) := by
  constructor
  · rfl
  · intro w s hascii hlen
    have h128 : ∀ c ∈ s.data, c.toNat < 128 := fun c hc => (hascii c hc).2
    have henc := pyEncode_ascii s h128
    have hlen2 : (s.data.map Char.toNat).length ≤ w := by
      rw [List.length_map]
      exact hlen
    have hlen3 : s.length ≤ w := hlen
    have hnz : ∀ x ∈ s.data.map Char.toNat, x ≠ 0 := by
      intro x hx
      rcases List.mem_map.mp hx with ⟨c, hc, rfl⟩
      have := (hascii c hc).1
      omega
    have hstore : printableSetText w (.strVal s)
        = .ok (s.data.map Char.toNat
            ++ List.replicate (w - (s.data.map Char.toNat).length) 0) := by
      simp [printableSetText, c_char_array_store, henc, hlen2, hlen3]
    have hload : c_char_array_load (s.data.map Char.toNat
        ++ List.replicate (w - (s.data.map Char.toNat).length) 0)
        = s.data.map Char.toNat := by
      unfold c_char_array_load
      exact takeWhile_append_zeros _ _ hnz
    rw [hstore]
    show printableGetText (s.data.map Char.toNat
        ++ List.replicate (w - (s.data.map Char.toNat).length) 0) = .ok s
    rw [printableGetText, hload, utf8Decode_ascii s.data h128]

/-- Claim C5 witness: the empty text-field list, and a concrete round
trip through an 8-byte field. -/
theorem text_field_roundtrip_witness :
    c_amdgpu_gpu_info_fields.filter (fun p => isTextFieldKind p.2) = [] ∧
    (printableSetText 8 (.strVal "gfx90a")).bind printableGetText = .ok "gfx90a" :=
  ⟨text_field_roundtrip_spec.1,
   text_field_roundtrip_spec.2 8 "gfx90a" (by decide) (by decide)⟩

/-! Friendly-object conversions. -/

lemma lookup_mem_of_key (l : List (String × PyVal)) (k : String)
    (h : k ∈ l.map Prod.fst) :
    ∃ v, l.lookup k = some v ∧ v ∈ l.map Prod.snd := by
  induction l with
  | nil => simp at h
  | cons p rest ih =>
    rcases p with ⟨k0, v0⟩
    by_cases hk : (k == k0) = true
    · refine ⟨v0, ?_, ?_⟩
      · simp [List.lookup, hk]
      · simp
    · have hmem : k ∈ rest.map Prod.fst := by
        have h2 : k = k0 ∨ ∃ x, (k, x) ∈ rest := by simpa using h
        rcases h2 with h' | ⟨x, hx⟩
        · exact absurd (by simp [h']) hk
        · exact List.mem_map.mpr ⟨(k, x), hx, rfl⟩
      rcases ih hmem with ⟨v, hv, hvm⟩
      refine ⟨v, ?_, ?_⟩
      · simp [List.lookup, hk, hv]
      · simp [hvm]

lemma intish_of_matches (kd : CKind) (v : PyVal)
    (hkind : kd.isIntegerKind = true) (hm : kd.matchesVal v = true) :
    v.isIntish = true := by
  cases kd with
  | c_uint => cases v <;> simp_all [CKind.matchesVal, PyVal.isU32, PyVal.isIntish]
  | c_ulonglong => cases v <;> simp_all [CKind.matchesVal, PyVal.isIntish]
  | c_char_array m => simp [CKind.isIntegerKind] at hkind
  | c_array m k =>
    cases k with
    | c_uint => cases v <;> simp_all [CKind.matchesVal, PyVal.isIntish]
    | c_ulonglong => cases v <;> simp_all [CKind.matchesVal, PyVal.isIntish]
    | c_char_array p => cases v <;> simp_all [CKind.matchesVal, PyVal.isIntish]
    | c_array p k2 =>
      cases k2 with
      | c_uint => cases v <;> simp_all [CKind.matchesVal, PyVal.isIntish]
      | c_ulonglong => cases v <;> simp_all [CKind.matchesVal, PyVal.isIntish]
      | c_char_array q => cases v <;> simp_all [CKind.matchesVal, PyVal.isIntish]
      | c_array q k3 => cases v <;> simp_all [CKind.matchesVal, PyVal.isIntish]

lemma wellTyped_keys (fields : List (String × CKind)) (vals : List (String × PyVal))
    (h : structWellTyped fields vals = true) :
    vals.map Prod.fst = fields.map Prod.fst := by
  induction fields generalizing vals with
  | nil =>
    cases vals with
    | nil => rfl
    | cons p r => simp [structWellTyped] at h
  | cons f fs ih =>
    cases vals with
    | nil =>
      rcases f with ⟨k, kd⟩
      simp [structWellTyped] at h
    | cons p r =>
      rcases f with ⟨k, kd⟩
      rcases p with ⟨k2, v⟩
      simp only [structWellTyped, Bool.and_eq_true, beq_iff_eq] at h
      obtain ⟨⟨hk, hm⟩, hrest⟩ := h
      simp [hk, ih r hrest]

lemma wellTyped_vals_intish (fields : List (String × CKind)) (vals : List (String × PyVal))
    (h : structWellTyped fields vals = true)
    (hk : fields.all (fun p => p.2.isIntegerKind) = true) :
    ∀ q ∈ vals, q.2.isIntish = true := by
  induction fields generalizing vals with
  | nil =>
    cases vals with
    | nil =>
      intro q hq
      simp at hq
    | cons p r => simp [structWellTyped] at h
  | cons f fs ih =>
    cases vals with
    | nil =>
      rcases f with ⟨k, kd⟩
      simp [structWellTyped] at h
    | cons p r =>
      rcases f with ⟨k, kd⟩
      rcases p with ⟨k2, v⟩
      simp only [structWellTyped, Bool.and_eq_true, beq_iff_eq] at h
      obtain ⟨⟨hkk, hm⟩, hrest⟩ := h
      simp only [List.all_cons, Bool.and_eq_true] at hk
      intro q hq
      rcases List.mem_cons.mp hq with rfl | hq'
      · exact intish_of_matches kd v hk.1 hm
      · exact ih r hrest hk.2 q hq'

lemma structToFriendly_intish (fields : List (String × CKind))
    (struct : List (String × PyVal))
    (h : (fields.all (fun p =>
        match struct.lookup p.1 with
        | some v => v.isIntish
        | none => false)) = true) :
    ∃ d : List (String × PyVal),
      amdgpuStructToFriendlyObject fields struct = .ok d ∧
      d.map Prod.fst = fields.map Prod.fst ∧
      ∀ q ∈ d, q.2.isIntish = true := by
  induction fields with
  | nil =>
    refine ⟨[], rfl, rfl, ?_⟩
    intro q hq
    simp at hq
  | cons f fs ih =>
    rcases f with ⟨key, kd⟩
    simp only [List.all_cons, Bool.and_eq_true] at h
    obtain ⟨hhead, htail⟩ := h
    rcases hlk : struct.lookup key with _ | v
    · rw [hlk] at hhead
      simp at hhead
    · rw [hlk] at hhead
      rcases ih htail with ⟨d, hd, hkeys, hint⟩
      have hga : printableGetattr v = .ok v := by
        cases v with
        | bytesVal b => exact absurd hhead (by simp [PyVal.isIntish])
        | intVal n => rfl
        | strVal s2 => rfl
        | arrVal xs => rfl
        | noneVal => rfl
      refine ⟨(key, v) :: d, ?_, ?_, ?_⟩
      · simp [amdgpuStructToFriendlyObject, hlk, hga, hd]
      · simp [hkeys]
      · intro q hq
        rcases List.mem_cons.mp hq with rfl | hq'
        · exact hhead
        · exact hint q hq'

lemma wellTyped_lookup_all (struct : List (String × PyVal))
    (h : structWellTyped c_amdgpu_gpu_info_fields struct = true) :
    (c_amdgpu_gpu_info_fields.all (fun p =>
      match struct.lookup p.1 with
      | some v => v.isIntish
      | none => false)) = true := by
  have hkeys := wellTyped_keys _ _ h
  have hint := wellTyped_vals_intish _ _ h (by rfl)
  rw [List.all_eq_true]
  intro p hp
  have hpk : p.1 ∈ struct.map Prod.fst := by
    rw [hkeys]
    exact List.mem_map.mpr ⟨p, hp, rfl⟩
  rcases lookup_mem_of_key struct p.1 hpk with ⟨v, hv, hvm⟩
  rw [hv]
  rcases List.mem_map.mp hvm with ⟨q, hq, rfl⟩
  exact hint q hq

lemma friendlyToStruct_err (obj : List (String × PyVal)) (fields : List (String × CKind))
    (model : List (String × PyVal))
    (h : (fields.any (fun p =>
        match obj.lookup p.1 with
        | some v => !v.isStr
        | none => true)) = true) :
    ∃ e : PyErr, amdgpuFriendlyObjectToStruct obj fields model = .error e := by
  induction fields generalizing model with
  | nil => simp at h
  | cons f fs ih =>
    rcases f with ⟨key, kd⟩
    rcases hlk : obj.lookup key with _ | v
    · exact ⟨.keyError, by simp [amdgpuFriendlyObjectToStruct, hlk]⟩
    · by_cases hstr : v.isStr = true
      · cases v with
        | strVal sv =>
          have htail : (fs.any (fun p =>
              match obj.lookup p.1 with
              | some v => !v.isStr
              | none => true)) = true := by
            simp only [List.any_cons, Bool.or_eq_true] at h
            rcases h with hhd | ht
            · rw [hlk] at hhd
              simp [PyVal.isStr] at hhd
            · exact ht
          obtain ⟨e, he⟩ := ih (setStructField model key (.bytesVal (pyEncode sv))) htail
          exact ⟨e, by simp [amdgpuFriendlyObjectToStruct, hlk, PyVal.encodeMethod, he]⟩
        | intVal n => simp [PyVal.isStr] at hstr
        | bytesVal b => simp [PyVal.isStr] at hstr
        | arrVal xs => simp [PyVal.isStr] at hstr
        | noneVal => simp [PyVal.isStr] at hstr
      · have henc : v.encodeMethod = .error .attributeError := by
          cases v with
          | strVal sv => exact absurd rfl hstr
          | intVal n => rfl
          | bytesVal b => rfl
          | arrVal xs => rfl
          | noneVal => rfl
        exact ⟨.attributeError, by simp [amdgpuFriendlyObjectToStruct, hlk, henc]⟩

/-- Claim C9: the 31 fields of c_amdgpu_gpu_info are all integers or
integer arrays; amdgpuFriendlyObjectToStruct calls .encode() on every
model field unconditionally, so it raises for any object carrying a
non-string value for some field; and for every well-typed
c_amdgpu_gpu_info value, the label/value view built by
amdgpuStructToFriendlyObject converts back with an AttributeError instead
of producing a struct: the view-to-struct direction never succeeds for
the GPU-info record. -/
theorem friendly_to_struct_raises_spec :
    (c_amdgpu_gpu_info_fields.length = 31 ∧
     c_amdgpu_gpu_info_fields.all (fun p => p.2.isIntegerKind) = true) ∧
    (∀ (obj : List (String × PyVal)) (fields : List (String × CKind))
        (model : List (String × PyVal)),
      (fields.any (fun p =>
        match obj.lookup p.1 with
        | some v => !v.isStr
        | none => true)) = true →
      ∃ e : PyErr, amdgpuFriendlyObjectToStruct obj fields model = .error e) ∧
    (∀ struct : List (String × PyVal),
      structWellTyped c_amdgpu_gpu_info_fields struct = true →
      ∃ d : List (String × PyVal),
        amdgpuStructToFriendlyObject c_amdgpu_gpu_info_fields struct = .ok d ∧
        ∀ model : List (String × PyVal),
          amdgpuFriendlyObjectToStruct d c_amdgpu_gpu_info_fields model
            = .error .attributeError) := by
  refine ⟨⟨rfl, rfl⟩,
    fun obj fields model h => friendlyToStruct_err obj fields model h, ?_⟩
  intro struct hwt
  have hall := wellTyped_lookup_all struct hwt
  rcases structToFriendly_intish c_amdgpu_gpu_info_fields struct hall with
    ⟨d, hd, hkeys, hint⟩
  refine ⟨d, hd, ?_⟩
  intro model
  cases d with
  | nil => simp [c_amdgpu_gpu_info_fields] at hkeys
  | cons q d2 =>
    rcases q with ⟨k0, v0⟩
    have hk0 : k0 = "asic_id" := by
      simp [c_amdgpu_gpu_info_fields] at hkeys
      exact hkeys.1
    have hv0 : v0.isIntish = true := hint (k0, v0) (List.mem_cons_self _ _)
    have henc : v0.encodeMethod = .error .attributeError := by
      cases v0 with
      | strVal s2 => simp [PyVal.isIntish] at hv0
      | intVal n => rfl
      | bytesVal b => rfl
      | arrVal xs => rfl
      | noneVal => rfl
    subst hk0
    simp [amdgpuFriendlyObjectToStruct, c_amdgpu_gpu_info_fields, List.lookup, henc]

/-- Claim C9 witness: the zero-initialized GPU-info record. -/
theorem friendly_to_struct_raises_witness :
    ∃ d : List (String × PyVal),
      amdgpuStructToFriendlyObject c_amdgpu_gpu_info_fields c_amdgpu_gpu_info_zero
        = .ok d ∧
      ∀ model : List (String × PyVal),
        amdgpuFriendlyObjectToStruct d c_amdgpu_gpu_info_fields model
          = .error .attributeError :=
  friendly_to_struct_raises_spec.2.2 c_amdgpu_gpu_info_zero (by rfl)

end Pyamdgpu
